import Mathlib

/-!
Verification of the device network management agent (go-provision).

The development shallowly embeds the Go sources of the repository:

* the interface directory (ifindex to name and ifindex to address-set maps,
  `pbr.go` / `addrchange.go`),
* the status synthesizer (`MakeDeviceNetworkStatus` and its geolocation
  preservation and refresh passes, `devicenetwork.go`),
* the cloud-connectivity test path of the `nim` agent
  (`tryDeviceConnectivityToCloud` and the test-better timer case of its
  select loop, `nim.go`),
* the LED manager's derived-counter logic and its DeviceNetworkStatus
  subscription handler (`ledmanager.go`).

Go maps are modelled as association lists with at most one binding per key;
IPv4 addresses are natural numbers below 2^32 and `net.IPNet` is an address
together with a mask value; wall-clock time is a natural number of seconds
passed explicitly.  External collaborators (netlink queries, dhcpcd, WPAD
retrieval, the geolocation service) are modelled as a record of pure oracle
functions, since a fixed OS and network state is assumed throughout.
-/

namespace GoProvision

/-! ## Go map model: association lists with at most one binding per key -/

def mapLookup {A : Type} (m : List (Int × A)) (k : Int) : Option A :=
  match m with
  | [] => none
  | (k1, v) :: rest => if k1 = k then some v else mapLookup rest k

def mapInsert {A : Type} (m : List (Int × A)) (k : Int) (v : A) : List (Int × A) :=
  match m with
  | [] => [(k, v)]
  | (k1, v1) :: rest =>
    if k1 = k then (k, v) :: rest else (k1, v1) :: mapInsert rest k v

def mapErase {A : Type} (m : List (Int × A)) (k : Int) : List (Int × A) :=
  match m with
  | [] => []
  | (k1, v1) :: rest =>
    if k1 = k then mapErase rest k else (k1, v1) :: mapErase rest k

/-! ## IP addresses and CIDR prefixes

IPv4 addresses are naturals below 2^32.  `net.IPNet` carries an address and a
mask; `(n : IPNet).Contains x` in Go masks both the network address and the
candidate address with the prefix mask and compares. -/

structure IPNet where
  ip : Nat
  mask : Nat
deriving DecidableEq, Inhabited

/-- Go `(*net.IPNet).Contains`: both sides are masked with the prefix mask. -/
def ipnetContains (n : IPNet) (x : Nat) : Bool :=
  Nat.land n.ip n.mask == Nat.land x n.mask

/-- Go `net.IP.IsLinkLocalUnicast` for IPv4: the 169.254.0.0/16 block. -/
def isLinkLocalUnicast (ip : Nat) : Bool :=
  ip / 65536 == 43518

/-! ## Interface directory: ifindex to link-name map (`pbr.go`) -/

structure LinkNameType where
  linkName : String
  linkType : String
deriving DecidableEq, Inhabited

/-- Translation of `IfindexToNameDel` in `pbr.go`: an unknown index is reported and left
alone; a known index is deleted whether or not the supplied name matches the
stored one (the mismatch is only logged).  Returns the updated map and the
`deleted` result. -/
def IfindexToNameDel (m : List (Int × LinkNameType)) (index : Int)
    (linkName : String) : List (Int × LinkNameType) × Bool :=
  match mapLookup m index with
  | none => (m, false)
  | some lnt =>
    if lnt.linkName ≠ linkName then (mapErase m index, true)
    else (mapErase m index, true)

/-! ## Interface directory: ifindex to address-set map (`addrchange.go`) -/

/-- The per-entry test of `IfindexToAddrsAdd` / `IfindexToAddrsDel`:
`a.IP.Equal(addr.IP) && a.Contains(addr.IP) && addr.Contains(a.IP)`. -/
def addrCoveredBy (a addr : IPNet) : Bool :=
  a.ip == addr.ip && ipnetContains a addr.ip && ipnetContains addr a.ip

/-- Translation of `IfindexToAddrsAdd`: a first address for an index is stored directly;
otherwise the address is appended unless some stored entry passes
`addrCoveredBy`.  Returns the updated map and the `added` result. -/
def IfindexToAddrsAdd (m : List (Int × List IPNet)) (index : Int)
    (addr : IPNet) : List (Int × List IPNet) × Bool :=
  match mapLookup m index with
  | none => (mapInsert m index [addr], true)
  | some addrs =>
    if addrs.any (fun a => addrCoveredBy a addr) then (m, false)
    else (mapInsert m index (addrs ++ [addr]), true)

/-! ## Status synthesizer data model (`types` package as used by the sources) -/

/-- Geolocation annotation of an address (`ipinfo.Info`): the IP the
geolocation service reported (compared by `UpdateDeviceNetworkGeo`) plus the
rest of the record, opaque here. -/
structure GeoInfo where
  ip : Nat
  payload : Nat
deriving DecidableEq, Inhabited

/-- Translation of `types.AddrInfo`: one synthesized address with its geolocation
annotation. -/
structure AddrInfo where
  addr : Nat
  geo : GeoInfo
  lastGeoTimestamp : Nat
deriving DecidableEq, Inhabited

structure ProxyConfig where
  proxies : List String
  exceptions : String
  pacfile : String
  networkProxyEnable : Bool
  networkProxyURL : String
deriving DecidableEq, Inhabited

/-- Modelled from the spec: `types.NetworkPortConfig` (declaration not under
src/): interface name, management-role flag, free-usage flag, DHCP mode,
static address data and proxy configuration.  `AddrSubnet` is a string parsed
with `net.ParseCIDR` in the source; it is modelled pre-parsed, `none` standing
for an unparsable subnet. -/
structure NetworkPortConfig where
  ifName : String
  name : String
  isMgmt : Bool
  free : Bool
  dhcp : Nat
  addrSubnet : Option IPNet
  gateway : Nat
  domainName : String
  ntpServer : Nat
  dnsServers : List Nat
  proxyConfig : ProxyConfig
deriving DecidableEq, Inhabited

/-- Modelled from the spec: `types.NetworkPortStatus` (declaration not under
src/), exactly the fields `MakeDeviceNetworkStatus` writes.  The Go zero
values are an empty `Error` string and a zero `ErrorTime`. -/
structure NetworkPortStatus where
  ifName : String
  name : String
  isMgmt : Bool
  free : Bool
  dhcp : Nat
  subnet : IPNet
  gateway : Nat
  domainName : String
  ntpServer : Nat
  dnsServers : List Nat
  proxyConfig : ProxyConfig
  addrInfoList : List AddrInfo
  error : String
  errorTime : Nat
deriving DecidableEq, Inhabited

/-- Modelled from the spec: `types.DeviceNetworkStatus` (declaration not under
src/): version, the `Testing` flag consumers must honour, and the per-port
statuses. -/
structure DeviceNetworkStatus where
  version : Nat
  testing : Bool
  ports : List NetworkPortStatus
deriving DecidableEq, Inhabited

/-- Modelled from the spec: `types.DevicePortConfig` (declaration not under
src/): one candidate, a value type copied into lists, with source key, time
priority and last-test metadata. -/
structure DevicePortConfig where
  version : Nat
  key : String
  timePriority : Nat
  lastSucceeded : Nat
  lastFailed : Nat
  lastError : String
  ports : List NetworkPortConfig
deriving DecidableEq, Inhabited

/-- Modelled from the spec: `types.DevicePortConfigList` (declaration not
under src/): the ordered candidate set plus the index of the candidate in
effect.  Its elements are struct values ("config objects are value types
copied into lists"), so Go indexing yields a copy. -/
structure DevicePortConfigList where
  currentIndex : Int
  portConfigList : List DevicePortConfig
deriving DecidableEq, Inhabited

/-- Translation of `types.DPCIsMgmt`, the first version whose candidates carry management
flags; `UpdateDeviceNetworkGeo` skips non-management ports from this version
on. -/
def dpcIsMgmt : Nat := 1

/-- The external collaborators used by `MakeDeviceNetworkStatus`, as pure
oracles over the fixed OS and network state:
`ifnameToIndex` models `IfnameToIndex` (cache with netlink fallback),
`ifindexToAddrs` models `IfindexToAddrs`,
`dhcpInfo` models `GetDhcpInfo` (modelled from the spec: pulls DHCP-furnished
DNS data, updating `DomainName` and `DnsServers`; declaration not under src/),
`networkProxy` models `CheckAndGetNetworkProxy` (modelled from the spec:
WPAD retrieval updating the `Pacfile`; declaration not under src/), and
`geoLookup` models `ipinfo.MyIPWithOptions`. -/
structure NetEnv where
  ifnameToIndex : String → Option Int
  ifindexToAddrs : Int → Option (List IPNet)
  dhcpInfo : String → Except String (String × List Nat)
  networkProxy : String → Except String (Option String)
  geoLookup : Nat → Option GeoInfo

/-! ## `MakeDeviceNetworkStatus` (`devicenetwork.go`), stage by stage -/

/-- The config-derived fields of one port status, as set at the top of the
per-port loop of `MakeDeviceNetworkStatus` before any lookup; the remaining
fields keep their Go zero values. -/
def basePortStatus (u : NetworkPortConfig) : NetworkPortStatus :=
  { ifName := u.ifName
    name := u.name
    isMgmt := u.isMgmt
    free := u.free
    dhcp := u.dhcp
    subnet := match u.addrSubnet with | some s => s | none => default
    gateway := u.gateway
    domainName := u.domainName
    ntpServer := u.ntpServer
    dnsServers := u.dnsServers
    proxyConfig := u.proxyConfig
    addrInfoList := []
    error := ""
    errorTime := 0 }

/-- The `GetDhcpInfo` call of the per-port loop: on success `DomainName` and
`DnsServers` are updated, on failure the port is marked errored. -/
def dhcpStep (env : NetEnv) (now : Nat) (p : NetworkPortStatus) :
    NetworkPortStatus :=
  match env.dhcpInfo p.ifName with
  | .ok r => { p with domainName := r.1, dnsServers := r.2 }
  | .error e =>
    { p with error := "GetDhcpInfo failed " ++ e, errorTime := now }

/-- The `CheckAndGetNetworkProxy` call of the per-port loop: on success the
`Pacfile` may be updated, on failure the port is marked errored. -/
def proxyStep (env : NetEnv) (now : Nat) (p : NetworkPortStatus) :
    NetworkPortStatus :=
  match env.networkProxy p.ifName with
  | .ok none => p
  | .ok (some pac) =>
    { p with proxyConfig := { p.proxyConfig with pacfile := pac } }
  | .error e =>
    { p with error := "GetNetworkProxy failed " ++ e, errorTime := now }

/-- One iteration of the per-port loop of `MakeDeviceNetworkStatus`.  When
`IfnameToIndex` fails the source logs
"Port does not exist - ignored" and continues with the next port: the port is
returned with its config-derived fields, no addresses and no error marking
(the `err` assigned there is a shadowed local).  When `IfindexToAddrs` fails
the address list is forced to nil with only a warning. -/
def mkPortStatus (env : NetEnv) (now : Nat) (u : NetworkPortConfig) :
    NetworkPortStatus :=
  let p := basePortStatus u
  match env.ifnameToIndex u.ifName with
  | none => p
  | some ifindex =>
    let addrs := (env.ifindexToAddrs ifindex).getD []
    let p :=
      { p with addrInfoList :=
          addrs.map (fun a => { addr := a.ip, geo := default,
                                lastGeoTimestamp := 0 }) }
    proxyStep env now (dhcpStep env now p)

/-- Inner scan of `lookupPortStatusAddr`: first address info whose IP equals
the one sought. -/
def findAddrInfo (l : List AddrInfo) (a : Nat) : Option AddrInfo :=
  match l with
  | [] => none
  | ai :: rest => if ai.addr = a then some ai else findAddrInfo rest a

/-- Translation of the loop of `lookupPortStatusAddr` over a port list: ports with a different interface
name are skipped, and a matching port without the address does not stop the
scan. -/
def lookupPortStatusAddrAux (ports : List NetworkPortStatus) (ifname : String)
    (a : Nat) : Option AddrInfo :=
  match ports with
  | [] => none
  | p :: rest =>
    if p.ifName = ifname then
      match findAddrInfo p.addrInfoList a with
      | some ai => some ai
      | none => lookupPortStatusAddrAux rest ifname a
    else lookupPortStatusAddrAux rest ifname a

/-- Translation of `lookupPortStatusAddr` of `devicenetwork.go`. -/
def lookupPortStatusAddr (status : DeviceNetworkStatus) (ifname : String)
    (a : Nat) : Option AddrInfo :=
  lookupPortStatusAddrAux status.ports ifname a

/-- One entry of the geo-preservation loop: a hit in the old status copies its
`Geo` and `LastGeoTimestamp` forward. -/
def preserveGeoEntry (oldStatus : DeviceNetworkStatus) (ifname : String)
    (ai : AddrInfo) : AddrInfo :=
  match lookupPortStatusAddr oldStatus ifname ai.addr with
  | none => ai
  | some oai => { ai with geo := oai.geo,
                          lastGeoTimestamp := oai.lastGeoTimestamp }

/-- The geo-preservation loop of `MakeDeviceNetworkStatus` over one port. -/
def preserveGeoPort (oldStatus : DeviceNetworkStatus)
    (p : NetworkPortStatus) : NetworkPortStatus :=
  { p with addrInfoList :=
      p.addrInfoList.map (preserveGeoEntry oldStatus p.ifName) }

/-- The body of the inner loop of `UpdateDeviceNetworkGeo`: link-local
addresses and addresses fetched within `timelimit` are left alone; a failed
lookup and an unchanged geolocation IP are left alone; otherwise the
annotation and the timestamp are refreshed.  Returns the entry and whether it
changed. -/
def updateAddrInfoGeo (env : NetEnv) (timelimit now : Nat) (ai : AddrInfo) :
    AddrInfo × Bool :=
  if isLinkLocalUnicast ai.addr then (ai, false)
  else if now - ai.lastGeoTimestamp < timelimit then (ai, false)
  else
    match env.geoLookup ai.addr with
    | none => (ai, false)
    | some info =>
      if info.ip = ai.geo.ip then (ai, false)
      else ({ ai with geo := info, lastGeoTimestamp := now }, true)

/-- The per-port step of `UpdateDeviceNetworkGeo`: from version `DPCIsMgmt`
on, non-management ports are skipped. -/
def updateGeoPort (env : NetEnv) (timelimit now version : Nat)
    (p : NetworkPortStatus) : NetworkPortStatus × Bool :=
  if dpcIsMgmt ≤ version ∧ p.isMgmt = false then (p, false)
  else
    let l := p.addrInfoList.map (updateAddrInfoGeo env timelimit now)
    ({ p with addrInfoList := l.map Prod.fst }, l.any Prod.snd)

/-- Translation of `UpdateDeviceNetworkGeo` of `devicenetwork.go`; returns the updated status
and whether anything might have changed. -/
def UpdateDeviceNetworkGeo (env : NetEnv) (timelimit now : Nat)
    (status : DeviceNetworkStatus) : DeviceNetworkStatus × Bool :=
  let l := status.ports.map (updateGeoPort env timelimit now status.version)
  ({ status with ports := l.map Prod.fst }, l.any Prod.snd)

/-- Translation of `MakeDeviceNetworkStatus` of `devicenetwork.go`: build each port from the
candidate and the live state, copy geolocation annotations forward from
`oldStatus` for unchanged addresses, then run the immediate
`UpdateDeviceNetworkGeo` check with a one-second time limit. -/
def MakeDeviceNetworkStatus (env : NetEnv) (now : Nat)
    (globalConfig : DevicePortConfig) (oldStatus : DeviceNetworkStatus) :
    DeviceNetworkStatus :=
  let base : DeviceNetworkStatus :=
    { version := globalConfig.version
      testing := false
      ports := globalConfig.ports.map (mkPortStatus env now) }
  let preserved : DeviceNetworkStatus :=
    { base with ports := base.ports.map (preserveGeoPort oldStatus) }
  (UpdateDeviceNetworkGeo env 1 now preserved).1

/-! ## The `nim` cloud-connectivity test path (`nim.go`) -/

/-- A `time.Timer` reduced to what the sources observe: whether it is armed
and with which interval (seconds). -/
structure Timer where
  running : Bool
  interval : Nat
deriving DecidableEq, Inhabited

/-- Modelled from the spec: the `Pending` verification working state of
`devicenetwork.DeviceNetworkContext` (declaration not under src/), of which
`nim.go` reads only the in-progress flag. -/
structure DPCPending where
  inprogress : Bool
deriving DecidableEq, Inhabited

/-- Modelled from the spec: the fields of
`devicenetwork.DeviceNetworkContext` (declaration not under src/) that
`nim.go` reads and writes. -/
structure DeviceNetworkContext where
  cloudConnectivityWorks : Bool
  pending : DPCPending
  nextDPCIndex : Nat
  devicePortConfigList : DevicePortConfigList
  networkTestInterval : Nat
  networkTestTimer : Timer
  networkTestBetterInterval : Nat
  networkTestBetterTimer : Timer
deriving DecidableEq, Inhabited

/-- What a run of `tryDeviceConnectivityToCloud` does besides updating the
context: whether it invoked `devicenetwork.RestartVerify` and what it
returned. -/
structure TryCloudResult where
  restartVerify : Bool
  returned : Bool
deriving DecidableEq, Inhabited

/-- Translation of `tryDeviceConnectivityToCloud` of `nim.go`.  The probe outcome of
`VerifyDeviceNetworkStatus` is the `pass` input.  On a passing probe the
source runs
`cur := ctx.DevicePortConfigList.PortConfigList[ctx.NextDPCIndex]` followed by
`cur.LastSucceeded = time.Now()`: indexing a slice of struct values copies the
element, so the assignment lands on the local copy and the list held in the
context is left as it was; the embedding mirrors that with a discarded
binding. -/
def tryDeviceConnectivityToCloud (ctx : DeviceNetworkContext) (pass : Bool)
    (now : Nat) : DeviceNetworkContext × TryCloudResult :=
  if pass then
    let ctx1 :=
      if ctx.nextDPCIndex < ctx.devicePortConfigList.portConfigList.length then
        let cur := ctx.devicePortConfigList.portConfigList.getD
          ctx.nextDPCIndex default
        let _curWithLastSucceeded := { cur with lastSucceeded := now }
        ctx
      else ctx
    ({ ctx1 with
        cloudConnectivityWorks := true
        networkTestTimer :=
          { running := true, interval := ctx1.networkTestInterval } },
     { restartVerify := false, returned := true })
  else
    if ctx.cloudConnectivityWorks = false then
      if ctx.pending.inprogress then
        (ctx, { restartVerify := false, returned := false })
      else
        (ctx, { restartVerify := true, returned := false })
    else
      ({ ctx with
          networkTestTimer :=
            { running := true, interval := ctx.networkTestInterval }
          cloudConnectivityWorks := false },
       { restartVerify := false, returned := false })

/-- The setup of the test-better timer in `Run` of `nim.go`: a zero configured
interval yields a dummy one-hour timer that is stopped right away (so it never
fires), any other interval yields a running timer with that interval. -/
def setupNetworkTestBetterTimer (interval : Nat) : Timer :=
  if interval = 0 then { running := false, interval := 3600 }
  else { running := true, interval := interval }

/-- The `NetworkTestBetterTimer` case of the select loop in `Run` of `nim.go`:
`ok = false` (stopped channel) is only logged, a firing with `NextDPCIndex`
zero is ignored, any other firing invokes `devicenetwork.RestartVerify`.
Returns whether `RestartVerify` was invoked.  `NextDPCIndex` is a Go int that
only ever holds an index into the candidate list, hence a natural here. -/
def handleNetworkTestBetterTimerFire (ok : Bool) (nextDPCIndex : Nat) : Bool :=
  if ok = false then false
  else if nextDPCIndex = 0 then false
  else true

/-! ## The LED manager (`ledmanager.go`) -/

/-- Modelled from the spec: `types.CountLocalAddrAnyNoLinkLocal` (declaration
not under src/) counts the usable addresses of a status: all synthesized
addresses of all ports except link-local ones. -/
def countLocalAddrAnyNoLinkLocal (status : DeviceNetworkStatus) : Nat :=
  (status.ports.map
    (fun p => (p.addrInfoList.filter
      (fun ai => isLinkLocalUnicast ai.addr = false)).length)).sum

/-- The state of `ledManagerContext` that the handlers under test read and
write.  `ledCounter` comes from an external `BlinkCounter`, hence an
integer. -/
structure LedManagerContext where
  ledCounter : Int
  deviceNetworkStatus : DeviceNetworkStatus
  usableAddressCount : Nat
  derivedLedCounter : Int
deriving DecidableEq, Inhabited

/-- Translation of `updateDerivedLedCounter` of `ledmanager.go`: merge the 1/2 values based
on having usable addresses with the externally requested counter, then emit
the derived counter on the blink channel.  Returns the updated context and
the emitted values. -/
def updateDerivedLedCounter (ctx : LedManagerContext) :
    LedManagerContext × List Int :=
  let d : Int :=
    if ctx.usableAddressCount = 0 then 1
    else if ctx.ledCounter < 2 then 2
    else ctx.ledCounter
  ({ ctx with derivedLedCounter := d }, [d])

/-- Translation of `handleDNSModify` of `ledmanager.go`: ignore other keys, ignore statuses
marked `Testing`, ignore no-change updates; otherwise store the status and,
when the usable-address count moves between zero and non-zero, record it and
re-derive the LED counter.  Returns the updated context and the emitted blink
counts. -/
def handleDNSModify (ctx : LedManagerContext) (key : String)
    (status : DeviceNetworkStatus) : LedManagerContext × List Int :=
  if key ≠ "global" then (ctx, [])
  else if status.testing then (ctx, [])
  else if ctx.deviceNetworkStatus = status then (ctx, [])
  else
    let ctx1 := { ctx with deviceNetworkStatus := status }
    let newAddrCount := countLocalAddrAnyNoLinkLocal status
    if (ctx1.usableAddressCount = 0 ∧ newAddrCount ≠ 0) ∨
        (ctx1.usableAddressCount ≠ 0 ∧ newAddrCount = 0) then
      updateDerivedLedCounter { ctx1 with usableAddressCount := newAddrCount }
    else (ctx1, [])

/-! ## Claims C1, C2 and C3: the cloud-connectivity test path -/

/-- Claim C1: from a state whose previous periodic cloud-connectivity test
succeeded (`CloudConnectivityWorks` true), a single failing probe in
`tryDeviceConnectivityToCloud` does not invoke `RestartVerify`: it only flips
`CloudConnectivityWorks` to false and re-arms the network-test timer; and this
path invokes `RestartVerify` exactly when the probe fails while
`CloudConnectivityWorks` is already false and no verification is in progress. -/
theorem claim_C1 (ctx : DeviceNetworkContext) (pass : Bool) (now : Nat) :
    (ctx.cloudConnectivityWorks = true →
      tryDeviceConnectivityToCloud ctx false now =
        ({ ctx with
            cloudConnectivityWorks := false
            networkTestTimer :=
              { running := true, interval := ctx.networkTestInterval } },
         { restartVerify := false, returned := false })) ∧
    ((tryDeviceConnectivityToCloud ctx pass now).2.restartVerify = true ↔
      pass = false ∧ ctx.cloudConnectivityWorks = false ∧
        ctx.pending.inprogress = false) := by
  constructor
  · intro h
    simp [tryDeviceConnectivityToCloud, h]
  · cases pass <;> cases hW : ctx.cloudConnectivityWorks <;>
      cases hP : ctx.pending.inprogress <;>
        simp [tryDeviceConnectivityToCloud, hW, hP]

/-- A concrete engine state with working cloud connectivity and idle
verification, for exercising claims C1. -/
def ctxC1 : DeviceNetworkContext :=
  { cloudConnectivityWorks := true
    pending := { inprogress := false }
    nextDPCIndex := 0
    devicePortConfigList := { currentIndex := 0, portConfigList := [] }
    networkTestInterval := 300
    networkTestTimer := { running := false, interval := 300 }
    networkTestBetterInterval := 0
    networkTestBetterTimer := { running := false, interval := 3600 } }

theorem claim_C1_witness :
    ctxC1.cloudConnectivityWorks = true ∧
    tryDeviceConnectivityToCloud ctxC1 false 7 =
      ({ ctxC1 with
          cloudConnectivityWorks := false
          networkTestTimer := { running := true, interval := 300 } },
       { restartVerify := false, returned := false }) ∧
    ((tryDeviceConnectivityToCloud ctxC1 false 7).2.restartVerify = true ↔
      false = false ∧ ctxC1.cloudConnectivityWorks = false ∧
        ctxC1.pending.inprogress = false) := by
  refine ⟨rfl, ?_, (claim_C1 ctxC1 false 7).2⟩
  exact (claim_C1 ctxC1 false 7).1 rfl

/-- Claim C2: a firing of the test-better timer invokes `RestartVerify`
exactly when `NextDPCIndex` is positive (a firing at index zero is ignored),
and a zero configured `NetworkTestBetterInterval` creates the timer
stopped. -/
theorem claim_C2 :
    (∀ nextDPCIndex : Nat,
      handleNetworkTestBetterTimerFire true nextDPCIndex =
        decide (0 < nextDPCIndex)) ∧
    (setupNetworkTestBetterTimer 0).running = false := by
  constructor
  · intro n
    cases n <;> simp [handleNetworkTestBetterTimerFire]
  · rfl

/-- A one-candidate list whose entry has never succeeded, for claim C3. -/
def dpcC3 : DevicePortConfig :=
  { version := 1, key := "zedagent", timePriority := 10, lastSucceeded := 0,
    lastFailed := 0, lastError := "", ports := [] }

/-- An engine state holding `dpcC3` at the pending index, for claim C3. -/
def ctxC3 : DeviceNetworkContext :=
  { cloudConnectivityWorks := false
    pending := { inprogress := false }
    nextDPCIndex := 0
    devicePortConfigList := { currentIndex := 0, portConfigList := [dpcC3] }
    networkTestInterval := 300
    networkTestTimer := { running := false, interval := 300 }
    networkTestBetterInterval := 0
    networkTestBetterTimer := { running := false, interval := 3600 } }

/-- Claim C3 (code bug): on a passing probe with `NextDPCIndex` a valid index
(here 0 into a one-element list) at time 42, `tryDeviceConnectivityToCloud`
does re-arm the network-test timer and return true, but the candidate list in
the context is left unchanged: its `LastSucceeded` is still 0, not 42,
because the source assigns through a copied struct value. -/
theorem claim_C3 :
    ctxC3.nextDPCIndex <
        ctxC3.devicePortConfigList.portConfigList.length ∧
    (tryDeviceConnectivityToCloud ctxC3 true 42).2.returned = true ∧
    (tryDeviceConnectivityToCloud ctxC3 true 42).1.networkTestTimer =
      { running := true, interval := 300 } ∧
    (tryDeviceConnectivityToCloud ctxC3 true 42).1.devicePortConfigList =
      ctxC3.devicePortConfigList ∧
    (((tryDeviceConnectivityToCloud ctxC3 true
          42).1.devicePortConfigList.portConfigList.getD 0
        default).lastSucceeded = 0 ∧ (0 : Nat) ≠ 42) := by
  refine ⟨by decide, rfl, rfl, rfl, rfl, by decide⟩

/-! ## Claim C8: link deletion in the interface directory -/

theorem mapLookup_mapErase {A : Type} (m : List (Int × A)) (k : Int) :
    mapLookup (mapErase m k) k = none := by
  induction m with
  | nil => rfl
  | cons hd tl ih =>
    obtain ⟨k1, v1⟩ := hd
    by_cases h : k1 = k <;> simp [mapErase, mapLookup, h, ih]

/-- Claim C8: `IfindexToNameDel` removes a present index and returns true
whatever name is supplied; an absent index returns false with the map
untouched. -/
theorem claim_C8 (m : List (Int × LinkNameType)) (index : Int)
    (linkName : String) :
    ((mapLookup m index).isSome = true →
      IfindexToNameDel m index linkName = (mapErase m index, true) ∧
      mapLookup (mapErase m index) index = none) ∧
    ((mapLookup m index).isSome = false →
      IfindexToNameDel m index linkName = (m, false)) := by
  constructor
  · intro h
    cases hl : mapLookup m index with
    | none => rw [hl] at h; cases h
    | some lnt =>
      refine ⟨?_, mapLookup_mapErase m index⟩
      simp [IfindexToNameDel, hl]
  · intro h
    cases hl : mapLookup m index with
    | none => simp [IfindexToNameDel, hl]
    | some lnt => rw [hl] at h; cases h

/-- A two-entry link map for the claim C8 witness. -/
def linkMapC8 : List (Int × LinkNameType) :=
  [(2, { linkName := "eth0", linkType := "device" }),
   (3, { linkName := "vif1", linkType := "vif" })]

theorem claim_C8_witness :
    ((mapLookup linkMapC8 2).isSome = true ∧
      IfindexToNameDel linkMapC8 2 "renamed" = (mapErase linkMapC8 2, true) ∧
      mapLookup (mapErase linkMapC8 2) 2 = none) ∧
    ((mapLookup linkMapC8 7).isSome = false ∧
      IfindexToNameDel linkMapC8 7 "eth0" = (linkMapC8, false)) := by
  refine ⟨⟨by decide, (claim_C8 linkMapC8 2 "renamed").1 (by decide)⟩,
    ⟨by decide, (claim_C8 linkMapC8 7 "eth0").2 (by decide)⟩⟩

/-! ## Claims C9 and C10: the LED manager -/

/-- Claim C9: a DeviceNetworkStatus update marked `Testing` leaves the LED
manager's context untouched and emits no blink-count change. -/
theorem claim_C9 (ctx : LedManagerContext) (key : String)
    (status : DeviceNetworkStatus) (h : status.testing = true) :
    handleDNSModify ctx key status = (ctx, []) := by
  by_cases hk : key = "global" <;> simp [handleDNSModify, hk, h]

/-- A non-trivial concrete LED manager state and a Testing-flagged status for
the claim C9 witness. -/
def ledCtxC9 : LedManagerContext :=
  { ledCounter := 4
    deviceNetworkStatus := { version := 1, testing := false, ports := [] }
    usableAddressCount := 2
    derivedLedCounter := 4 }

theorem claim_C9_witness :
    (DeviceNetworkStatus.mk 1 true []).testing = true ∧
    handleDNSModify ledCtxC9 "global" (DeviceNetworkStatus.mk 1 true []) =
      (ledCtxC9, []) := by
  exact ⟨rfl, claim_C9 ledCtxC9 "global" (DeviceNetworkStatus.mk 1 true []) rfl⟩

/-- Claim C10: after `updateDerivedLedCounter` the derived counter is at
least 1, equals 1 exactly when the usable-address count is zero, and is at
least 2 whenever at least one usable address exists. -/
theorem claim_C10 (ctx : LedManagerContext) :
    1 ≤ (updateDerivedLedCounter ctx).1.derivedLedCounter ∧
    ((updateDerivedLedCounter ctx).1.derivedLedCounter = 1 ↔
      ctx.usableAddressCount = 0) ∧
    (1 ≤ ctx.usableAddressCount →
      2 ≤ (updateDerivedLedCounter ctx).1.derivedLedCounter) := by
  unfold updateDerivedLedCounter
  by_cases h0 : ctx.usableAddressCount = 0
  · simp [h0]
  · by_cases h2 : ctx.ledCounter < 2
    · simp [h0, h2]
    · simp [h0, h2]
      omega

/-- A concrete LED manager state with one usable address for the claim C10
witness. -/
def ledCtxC10 : LedManagerContext :=
  { ledCounter := 0
    deviceNetworkStatus := { version := 1, testing := false, ports := [] }
    usableAddressCount := 1
    derivedLedCounter := 0 }

theorem claim_C10_witness :
    1 ≤ (updateDerivedLedCounter ledCtxC10).1.derivedLedCounter ∧
    ((updateDerivedLedCounter ledCtxC10).1.derivedLedCounter = 1 ↔
      ledCtxC10.usableAddressCount = 0) ∧
    (1 ≤ ledCtxC10.usableAddressCount ∧
      2 ≤ (updateDerivedLedCounter ledCtxC10).1.derivedLedCounter) := by
  refine ⟨(claim_C10 ledCtxC10).1, (claim_C10 ledCtxC10).2.1,
    by decide, (claim_C10 ledCtxC10).2.2 (by decide)⟩

/-! ## Claim C7: address-set de-duplication -/

/-- Because Go's `Contains` masks both the network address and the candidate,
both containment conjuncts of `addrCoveredBy` hold automatically once the IPs
are equal: the whole test collapses to IP equality. -/
theorem addrCoveredBy_eq_ip_eq (a addr : IPNet) :
    addrCoveredBy a addr = (a.ip == addr.ip) := by
  unfold addrCoveredBy ipnetContains
  by_cases h : a.ip = addr.ip
  · simp [h]
  · have hb : (a.ip == addr.ip) = false := by
      simpa using h
    rw [hb, Bool.false_and, Bool.false_and]

/-- Claim C7, corrected: for an ifindex whose stored address list is present
(and non-empty), `IfindexToAddrsAdd` refuses to re-add exactly when some
stored entry has an equal IP; the containment conjuncts of the source's test
are redundant, so in particular the same IP with a different prefix length is
treated as the same entry, while mutual CIDR containment alone does not
prevent the append. -/
theorem claim_C7 (m : List (Int × List IPNet)) (index : Int) (addr : IPNet)
    (addrs : List IPNet) (hm : mapLookup m index = some addrs)
    (_hne : addrs ≠ []) :
    (addrs.any (fun a => addrCoveredBy a addr)
        = addrs.any (fun a => a.ip == addr.ip)) ∧
    (addrs.any (fun a => a.ip == addr.ip) = true →
      IfindexToAddrsAdd m index addr = (m, false)) ∧
    (addrs.any (fun a => a.ip == addr.ip) = false →
      IfindexToAddrsAdd m index addr =
        (mapInsert m index (addrs ++ [addr]), true)) := by
  have hfn : (fun a => addrCoveredBy a addr) =
      (fun a : IPNet => a.ip == addr.ip) :=
    funext (fun a => addrCoveredBy_eq_ip_eq a addr)
  refine ⟨by rw [hfn], ?_, ?_⟩ <;> intro h <;>
    simp [IfindexToAddrsAdd, hm, hfn, h]

/-- Counterexample to claim C7 as stated: the stored entry 9/mask 12 and the
new address 10/mask 12 mutually contain each other's IP (both mask to 8), yet
`IfindexToAddrsAdd` appends the new address and returns true because the IPs
differ. -/
theorem counterexample_C7 :
    (ipnetContains (IPNet.mk 9 12) 10 = true ∧
      ipnetContains (IPNet.mk 10 12) 9 = true) ∧
    IfindexToAddrsAdd [(2, [IPNet.mk 9 12])] 2 (IPNet.mk 10 12) =
      ([(2, [IPNet.mk 9 12, IPNet.mk 10 12])], true) := by
  refine ⟨⟨by decide, by decide⟩, by decide⟩

/-- Witness for claim C7: index 1 stores 5/mask 6; re-adding IP 5 with the
different mask 7 is refused and leaves the map unchanged, while the fresh IP
9 is appended. -/
theorem claim_C7_witness :
    mapLookup [(1, [IPNet.mk 5 6])] 1 = some [IPNet.mk 5 6] ∧
    [IPNet.mk 5 6] ≠ ([] : List IPNet) ∧
    IfindexToAddrsAdd [(1, [IPNet.mk 5 6])] 1 (IPNet.mk 5 7) =
      ([(1, [IPNet.mk 5 6])], false) ∧
    IfindexToAddrsAdd [(1, [IPNet.mk 5 6])] 1 (IPNet.mk 9 6) =
      ([(1, [IPNet.mk 5 6, IPNet.mk 9 6])], true) := by
  refine ⟨by decide, by decide, ?_, ?_⟩
  · exact (claim_C7 [(1, [IPNet.mk 5 6])] 1 (IPNet.mk 5 7) [IPNet.mk 5 6]
      (by decide) (by decide)).2.1 (by decide)
  · exact (claim_C7 [(1, [IPNet.mk 5 6])] 1 (IPNet.mk 9 6) [IPNet.mk 5 6]
      (by decide) (by decide)).2.2 (by decide)

/-! ## Shape of `MakeDeviceNetworkStatus`: per-port and per-address views -/

/-- The address IPs the synthesizer resolves for one port. -/
def ipsOf (env : NetEnv) (u : NetworkPortConfig) : List Nat :=
  match env.ifnameToIndex u.ifName with
  | none => []
  | some ifindex => ((env.ifindexToAddrs ifindex).getD []).map IPNet.ip

/-- A freshly synthesized address entry: default geolocation, zero
timestamp. -/
def freshAddrInfo (a : Nat) : AddrInfo :=
  { addr := a, geo := default, lastGeoTimestamp := 0 }

/-- The whole per-port pipeline of `MakeDeviceNetworkStatus`: build, preserve
geolocation from the old status, run the immediate geolocation check. -/
def materializePort (env : NetEnv) (now version : Nat)
    (oldStatus : DeviceNetworkStatus) (u : NetworkPortConfig) :
    NetworkPortStatus :=
  (updateGeoPort env 1 now version
    (preserveGeoPort oldStatus (mkPortStatus env now u))).1

/-- The per-address pipeline of `materializePort`, as a function of the
address alone: geolocation preservation always applies, the refresh only on
ports the version check does not skip. -/
def portAddrFn (env : NetEnv) (now version : Nat)
    (oldStatus : DeviceNetworkStatus) (u : NetworkPortConfig) (a : Nat) :
    AddrInfo :=
  if dpcIsMgmt ≤ version ∧ u.isMgmt = false then
    preserveGeoEntry oldStatus u.ifName (freshAddrInfo a)
  else
    (updateAddrInfoGeo env 1 now
      (preserveGeoEntry oldStatus u.ifName (freshAddrInfo a))).1

theorem dhcpStep_addrInfoList (env : NetEnv) (now : Nat)
    (p : NetworkPortStatus) :
    (dhcpStep env now p).addrInfoList = p.addrInfoList := by
  unfold dhcpStep
  cases env.dhcpInfo p.ifName <;> rfl

theorem dhcpStep_ifName (env : NetEnv) (now : Nat) (p : NetworkPortStatus) :
    (dhcpStep env now p).ifName = p.ifName := by
  unfold dhcpStep
  cases env.dhcpInfo p.ifName <;> rfl

theorem dhcpStep_isMgmt (env : NetEnv) (now : Nat) (p : NetworkPortStatus) :
    (dhcpStep env now p).isMgmt = p.isMgmt := by
  unfold dhcpStep
  cases env.dhcpInfo p.ifName <;> rfl

theorem proxyStep_addrInfoList (env : NetEnv) (now : Nat)
    (p : NetworkPortStatus) :
    (proxyStep env now p).addrInfoList = p.addrInfoList := by
  unfold proxyStep
  cases h : env.networkProxy p.ifName with
  | error e => rfl
  | ok o => cases o <;> rfl

theorem proxyStep_ifName (env : NetEnv) (now : Nat) (p : NetworkPortStatus) :
    (proxyStep env now p).ifName = p.ifName := by
  unfold proxyStep
  cases h : env.networkProxy p.ifName with
  | error e => rfl
  | ok o => cases o <;> rfl

theorem proxyStep_isMgmt (env : NetEnv) (now : Nat) (p : NetworkPortStatus) :
    (proxyStep env now p).isMgmt = p.isMgmt := by
  unfold proxyStep
  cases h : env.networkProxy p.ifName with
  | error e => rfl
  | ok o => cases o <;> rfl

theorem mkPortStatus_addrInfoList (env : NetEnv) (now : Nat)
    (u : NetworkPortConfig) :
    (mkPortStatus env now u).addrInfoList =
      (ipsOf env u).map freshAddrInfo := by
  unfold mkPortStatus ipsOf
  cases h : env.ifnameToIndex u.ifName with
  | none => rfl
  | some ifindex =>
    rw [proxyStep_addrInfoList, dhcpStep_addrInfoList]
    simp only [List.map_map]
    exact List.map_congr_left (fun a _ => rfl)

theorem mkPortStatus_ifName (env : NetEnv) (now : Nat)
    (u : NetworkPortConfig) :
    (mkPortStatus env now u).ifName = u.ifName := by
  unfold mkPortStatus
  cases h : env.ifnameToIndex u.ifName with
  | none => rfl
  | some ifindex =>
    rw [proxyStep_ifName, dhcpStep_ifName]
    rfl

theorem mkPortStatus_isMgmt (env : NetEnv) (now : Nat)
    (u : NetworkPortConfig) :
    (mkPortStatus env now u).isMgmt = u.isMgmt := by
  unfold mkPortStatus
  cases h : env.ifnameToIndex u.ifName with
  | none => rfl
  | some ifindex =>
    rw [proxyStep_isMgmt, dhcpStep_isMgmt]
    rfl

/-- When the interface name does not resolve, the per-port loop keeps only
the config-derived fields: no addresses, no error marking. -/
theorem mkPortStatus_of_ifname_none (env : NetEnv) (now : Nat)
    (u : NetworkPortConfig) (h : env.ifnameToIndex u.ifName = none) :
    mkPortStatus env now u = basePortStatus u := by
  unfold mkPortStatus
  rw [h]

theorem preserveGeoEntry_addr (oldStatus : DeviceNetworkStatus)
    (ifname : String) (ai : AddrInfo) :
    (preserveGeoEntry oldStatus ifname ai).addr = ai.addr := by
  unfold preserveGeoEntry
  cases lookupPortStatusAddr oldStatus ifname ai.addr <;> rfl

theorem updateAddrInfoGeo_addr (env : NetEnv) (timelimit now : Nat)
    (ai : AddrInfo) :
    (updateAddrInfoGeo env timelimit now ai).1.addr = ai.addr := by
  unfold updateAddrInfoGeo
  by_cases h1 : isLinkLocalUnicast ai.addr
  · simp [h1]
  · by_cases h2 : now - ai.lastGeoTimestamp < timelimit
    · simp [h1, h2]
    · cases hg : env.geoLookup ai.addr with
      | none => simp [h1, h2, hg]
      | some info =>
        by_cases h3 : info.ip = ai.geo.ip <;> simp [h1, h2, hg, h3]

theorem portAddrFn_addr (env : NetEnv) (now version : Nat)
    (oldStatus : DeviceNetworkStatus) (u : NetworkPortConfig) (a : Nat) :
    (portAddrFn env now version oldStatus u a).addr = a := by
  unfold portAddrFn
  by_cases hc : dpcIsMgmt ≤ version ∧ u.isMgmt = false
  · rw [if_pos hc, preserveGeoEntry_addr]
    rfl
  · rw [if_neg hc, updateAddrInfoGeo_addr, preserveGeoEntry_addr]
    rfl

theorem preserveGeoPort_isMgmt (oldStatus : DeviceNetworkStatus)
    (p : NetworkPortStatus) :
    (preserveGeoPort oldStatus p).isMgmt = p.isMgmt := rfl

theorem preserveGeoPort_addrInfoList (oldStatus : DeviceNetworkStatus)
    (p : NetworkPortStatus) :
    (preserveGeoPort oldStatus p).addrInfoList =
      p.addrInfoList.map (preserveGeoEntry oldStatus p.ifName) := rfl

theorem updateGeoPort_fst (env : NetEnv) (timelimit now version : Nat)
    (p : NetworkPortStatus) :
    (updateGeoPort env timelimit now version p).1 =
      if dpcIsMgmt ≤ version ∧ p.isMgmt = false then p
      else { p with
              addrInfoList :=
                p.addrInfoList.map
                  (fun ai => (updateAddrInfoGeo env timelimit now ai).1) } := by
  unfold updateGeoPort
  by_cases hc : dpcIsMgmt ≤ version ∧ p.isMgmt = false
  · rw [if_pos hc, if_pos hc]
  · rw [if_neg hc, if_neg hc]
    simp only [List.map_map]
    rfl

/-- The function `materializePort` in closed form: the config-derived port with its address
list given pointwise by `portAddrFn`. -/
theorem materializePort_eq (env : NetEnv) (now version : Nat)
    (oldStatus : DeviceNetworkStatus) (u : NetworkPortConfig) :
    materializePort env now version oldStatus u =
      { mkPortStatus env now u with
          addrInfoList :=
            (ipsOf env u).map (portAddrFn env now version oldStatus u) } := by
  have hMg := mkPortStatus_isMgmt env now u
  have hNm := mkPortStatus_ifName env now u
  have hAd := mkPortStatus_addrInfoList env now u
  unfold materializePort
  rw [updateGeoPort_fst]
  by_cases hc : dpcIsMgmt ≤ version ∧ u.isMgmt = false
  · have hcond : dpcIsMgmt ≤ version ∧
        (preserveGeoPort oldStatus (mkPortStatus env now u)).isMgmt = false := by
      refine ⟨hc.1, ?_⟩
      rw [preserveGeoPort_isMgmt, hMg]
      exact hc.2
    rw [if_pos hcond]
    have hAB : (mkPortStatus env now u).addrInfoList.map
        (preserveGeoEntry oldStatus (mkPortStatus env now u).ifName)
        = (ipsOf env u).map (portAddrFn env now version oldStatus u) := by
      rw [hAd, hNm, List.map_map]
      apply List.map_congr_left
      intro a _
      unfold portAddrFn
      rw [if_pos hc]
      rfl
    exact congrArg
      (fun l => { mkPortStatus env now u with addrInfoList := l }) hAB
  · have hcond : ¬(dpcIsMgmt ≤ version ∧
        (preserveGeoPort oldStatus (mkPortStatus env now u)).isMgmt = false) := by
      rw [preserveGeoPort_isMgmt, hMg]
      exact hc
    rw [if_neg hcond]
    have hAB : ((mkPortStatus env now u).addrInfoList.map
        (preserveGeoEntry oldStatus (mkPortStatus env now u).ifName)).map
          (fun ai => (updateAddrInfoGeo env 1 now ai).1)
        = (ipsOf env u).map (portAddrFn env now version oldStatus u) := by
      rw [hAd, hNm, List.map_map, List.map_map]
      apply List.map_congr_left
      intro a _
      unfold portAddrFn
      rw [if_neg hc]
      rfl
    exact congrArg
      (fun l => { mkPortStatus env now u with addrInfoList := l }) hAB

theorem materializePort_ifName (env : NetEnv) (now version : Nat)
    (oldStatus : DeviceNetworkStatus) (u : NetworkPortConfig) :
    (materializePort env now version oldStatus u).ifName = u.ifName := by
  rw [materializePort_eq]
  exact mkPortStatus_ifName env now u

theorem materializePort_addrInfoList (env : NetEnv) (now version : Nat)
    (oldStatus : DeviceNetworkStatus) (u : NetworkPortConfig) :
    (materializePort env now version oldStatus u).addrInfoList =
      (ipsOf env u).map (portAddrFn env now version oldStatus u) := by
  rw [materializePort_eq]

/-- Scanning a list of entries produced by an address-preserving function
finds the image of the address sought, whenever that address occurs. -/
theorem findAddrInfo_map_of_addr (f : Nat → AddrInfo)
    (hf : ∀ x, (f x).addr = x) (ips : List Nat) (a : Nat) (ha : a ∈ ips) :
    findAddrInfo (ips.map f) a = some (f a) := by
  induction ips with
  | nil => cases ha
  | cons x tl ih =>
    rcases List.mem_cons.mp ha with h | h
    · subst h
      simp [findAddrInfo, hf]
    · by_cases hx : x = a
      · subst hx
        simp [findAddrInfo, hf]
      · simp only [List.map_cons, findAddrInfo, hf x, if_neg hx]
        exact ih h

/-- Lookup over a freshly materialized port list with
pairwise-distinct interface names resolves to the per-address pipeline value
of the port carrying the name. -/
theorem lookupAux_map_materialize (env : NetEnv) (now version : Nat)
    (oldStatus : DeviceNetworkStatus) (ports : List NetworkPortConfig)
    (hnd : (ports.map NetworkPortConfig.ifName).Nodup)
    (u : NetworkPortConfig) (hu : u ∈ ports) (a : Nat)
    (ha : a ∈ ipsOf env u) :
    lookupPortStatusAddrAux
        (ports.map (materializePort env now version oldStatus)) u.ifName a
      = some (portAddrFn env now version oldStatus u a) := by
  induction ports with
  | nil => cases hu
  | cons w tl ih =>
    rcases List.mem_cons.mp hu with h | h
    · subst h
      simp only [List.map_cons, lookupPortStatusAddrAux,
        materializePort_ifName, if_pos rfl]
      rw [materializePort_addrInfoList,
        findAddrInfo_map_of_addr _ (portAddrFn_addr env now version oldStatus u)
          _ a ha]
      simp
    · have hw : w.ifName ≠ u.ifName := by
        intro he
        apply (List.nodup_cons.mp hnd).1
        rw [he]
        exact List.mem_map_of_mem NetworkPortConfig.ifName h
      simp only [List.map_cons, lookupPortStatusAddrAux,
        materializePort_ifName, if_neg hw]
      exact ih (List.nodup_cons.mp hnd).2 h

/-- The function `MakeDeviceNetworkStatus` in closed form: a non-Testing status with the
candidate's version whose ports are the per-port pipeline applied to each
config port. -/
theorem MakeDeviceNetworkStatus_eq (env : NetEnv) (now : Nat)
    (globalConfig : DevicePortConfig) (oldStatus : DeviceNetworkStatus) :
    MakeDeviceNetworkStatus env now globalConfig oldStatus =
      { version := globalConfig.version
        testing := false
        ports := globalConfig.ports.map
          (materializePort env now globalConfig.version oldStatus) } := by
  unfold MakeDeviceNetworkStatus UpdateDeviceNetworkGeo
  simp only [List.map_map]
  have hAB : globalConfig.ports.map
      ((fun x => x.1) ∘ updateGeoPort env 1 now globalConfig.version ∘
        (preserveGeoPort oldStatus ∘ mkPortStatus env now))
      = globalConfig.ports.map
        (materializePort env now globalConfig.version oldStatus) :=
    List.map_congr_left (fun u _ => rfl)
  exact congrArg
    (fun l => DeviceNetworkStatus.mk globalConfig.version false l) hAB

theorem getD_map_of_lt {A B : Type} [Inhabited A] [Inhabited B] (f : A → B)
    (l : List A) (ix : Nat) (h : ix < l.length) :
    (l.map f).getD ix default = f (l.getD ix default) := by
  rw [List.getD_eq_getElem?_getD, List.getD_eq_getElem?_getD,
    List.getElem?_map, List.getElem?_eq_getElem h]
  rfl

theorem ipsOf_of_ifname_none (env : NetEnv) (u : NetworkPortConfig)
    (h : env.ifnameToIndex u.ifName = none) : ipsOf env u = [] := by
  unfold ipsOf
  rw [h]

theorem materializePort_error (env : NetEnv) (now version : Nat)
    (oldStatus : DeviceNetworkStatus) (u : NetworkPortConfig) :
    (materializePort env now version oldStatus u).error =
      (mkPortStatus env now u).error := by
  rw [materializePort_eq]

theorem materializePort_errorTime (env : NetEnv) (now version : Nat)
    (oldStatus : DeviceNetworkStatus) (u : NetworkPortConfig) :
    (materializePort env now version oldStatus u).errorTime =
      (mkPortStatus env now u).errorTime := by
  rw [materializePort_eq]

/-! ## Claim C4: a port whose interface name does not resolve -/

/-- Claim C4, corrected: when a port's interface name cannot be resolved to an
ifindex, `MakeDeviceNetworkStatus` leaves that port with NO error marking (its
`Error` stays empty and its `ErrorTime` zero — the source only logs "Port does
not exist - ignored" into a shadowed local), gives it no synthesized
addresses, and still evaluates every other port: the result is the per-port
pipeline mapped over the whole candidate. -/
theorem claim_C4 (env : NetEnv) (now : Nat) (config : DevicePortConfig)
    (oldStatus : DeviceNetworkStatus) (ix : Nat)
    (hix : ix < config.ports.length)
    (hnone : env.ifnameToIndex (config.ports.getD ix default).ifName = none) :
    ((MakeDeviceNetworkStatus env now config oldStatus).ports.getD ix
        default).error = "" ∧
    ((MakeDeviceNetworkStatus env now config oldStatus).ports.getD ix
        default).errorTime = 0 ∧
    ((MakeDeviceNetworkStatus env now config oldStatus).ports.getD ix
        default).addrInfoList = [] ∧
    (MakeDeviceNetworkStatus env now config oldStatus).ports =
      config.ports.map (materializePort env now config.version oldStatus) := by
  have hports : (MakeDeviceNetworkStatus env now config oldStatus).ports =
      config.ports.map (materializePort env now config.version oldStatus) := by
    rw [MakeDeviceNetworkStatus_eq]
  have hgd : (MakeDeviceNetworkStatus env now config oldStatus).ports.getD ix
      default = materializePort env now config.version oldStatus
        (config.ports.getD ix default) := by
    rw [hports, getD_map_of_lt _ _ _ hix]
  have hmk : mkPortStatus env now (config.ports.getD ix default) =
      basePortStatus (config.ports.getD ix default) :=
    mkPortStatus_of_ifname_none env now _ hnone
  refine ⟨?_, ?_, ?_, hports⟩
  · rw [hgd, materializePort_error, hmk]
    rfl
  · rw [hgd, materializePort_errorTime, hmk]
    rfl
  · rw [hgd, materializePort_addrInfoList,
      ipsOf_of_ifname_none env _ hnone]
    rfl

/-- A fixed OS state for claims C4: eth0 does not resolve, eth1 is ifindex 2
with one address. -/
def envC4 : NetEnv :=
  { ifnameToIndex := fun s => if s = "eth1" then some 2 else none
    ifindexToAddrs := fun i => if i = 2 then some [IPNet.mk 100 3] else none
    dhcpInfo := fun _ => .ok ("", [])
    networkProxy := fun _ => .ok none
    geoLookup := fun _ => none }

/-- A management port on eth0 (which `envC4` cannot resolve). -/
def portCfgC4a : NetworkPortConfig :=
  { ifName := "eth0", name := "eth0", isMgmt := true, free := true, dhcp := 4,
    addrSubnet := none, gateway := 0, domainName := "", ntpServer := 0,
    dnsServers := [], proxyConfig := default }

/-- A management port on eth1 (which `envC4` resolves). -/
def portCfgC4b : NetworkPortConfig :=
  { portCfgC4a with ifName := "eth1", name := "eth1" }

/-- A candidate listing the unresolvable port first. -/
def configC4 : DevicePortConfig :=
  { version := 1, key := "override", timePriority := 3, lastSucceeded := 0,
    lastFailed := 0, lastError := "", ports := [portCfgC4a, portCfgC4b] }

/-- The empty previous status used by the concrete status-synthesizer runs. -/
def emptyDNS : DeviceNetworkStatus :=
  { version := 1, testing := false, ports := [] }

/-- Counterexample to claim C4 as stated: materializing `configC4` under
`envC4` leaves the unresolvable eth0 port with an EMPTY `Error` and a zero
`ErrorTime` — it is not "marked errored" — while eth1 is still evaluated and
receives its address. -/
theorem counterexample_C4 :
    envC4.ifnameToIndex "eth0" = none ∧
    ((MakeDeviceNetworkStatus envC4 5 configC4 emptyDNS).ports.getD 0
        default).error = "" ∧
    ((MakeDeviceNetworkStatus envC4 5 configC4 emptyDNS).ports.getD 0
        default).errorTime = 0 ∧
    ((MakeDeviceNetworkStatus envC4 5 configC4 emptyDNS).ports.getD 0
        default).addrInfoList = [] ∧
    ((MakeDeviceNetworkStatus envC4 5 configC4 emptyDNS).ports.getD 1
        default).addrInfoList =
      [{ addr := 100, geo := default, lastGeoTimestamp := 0 }] := by
  refine ⟨rfl, by decide, by decide, by decide, by decide⟩

theorem claim_C4_witness :
    0 < configC4.ports.length ∧
    envC4.ifnameToIndex (configC4.ports.getD 0 default).ifName = none ∧
    (((MakeDeviceNetworkStatus envC4 5 configC4 emptyDNS).ports.getD 0
        default).error = "" ∧
      ((MakeDeviceNetworkStatus envC4 5 configC4 emptyDNS).ports.getD 0
        default).errorTime = 0 ∧
      ((MakeDeviceNetworkStatus envC4 5 configC4 emptyDNS).ports.getD 0
        default).addrInfoList = [] ∧
      (MakeDeviceNetworkStatus envC4 5 configC4 emptyDNS).ports =
        configC4.ports.map (materializePort envC4 5 configC4.version
          emptyDNS)) :=
  ⟨by decide, by decide,
    claim_C4 envC4 5 configC4 emptyDNS 0 (by decide) (by decide)⟩

/-! ## Claim C6: copying geolocation annotations forward -/

/-- Claim C6, corrected: an address of the newly synthesized status that
`lookupPortStatusAddr` finds on a port of the same interface name in the old
status receives the old entry's `Geo` and `LastGeoTimestamp` — and the copied
values survive in the RETURNED status provided the immediate one-second
geolocation check leaves them alone: either the old timestamp is less than one
second old, or any fetched geolocation carries the same IP as the copied
annotation. -/
theorem claim_C6 (env : NetEnv) (now : Nat) (config : DevicePortConfig)
    (oldStatus : DeviceNetworkStatus) (ix a : Nat) (oai : AddrInfo)
    (hix : ix < config.ports.length)
    (ha : a ∈ ipsOf env (config.ports.getD ix default))
    (hl : lookupPortStatusAddr oldStatus
        (config.ports.getD ix default).ifName a = some oai)
    (hfresh : now - oai.lastGeoTimestamp < 1 ∨
      ∀ info, env.geoLookup a = some info → info.ip = oai.geo.ip) :
    findAddrInfo ((MakeDeviceNetworkStatus env now config
        oldStatus).ports.getD ix default).addrInfoList a
      = some { addr := a, geo := oai.geo,
               lastGeoTimestamp := oai.lastGeoTimestamp } := by
  have hgd : (MakeDeviceNetworkStatus env now config oldStatus).ports.getD ix
      default = materializePort env now config.version oldStatus
        (config.ports.getD ix default) := by
    rw [MakeDeviceNetworkStatus_eq, getD_map_of_lt _ _ _ hix]
  rw [hgd, materializePort_addrInfoList,
    findAddrInfo_map_of_addr _
      (portAddrFn_addr env now config.version oldStatus
        (config.ports.getD ix default)) _ a ha]
  have hpe : preserveGeoEntry oldStatus
      (config.ports.getD ix default).ifName (freshAddrInfo a)
      = { addr := a, geo := oai.geo,
          lastGeoTimestamp := oai.lastGeoTimestamp } := by
    unfold preserveGeoEntry
    rw [show (freshAddrInfo a).addr = a from rfl, hl]
  have hupd : (updateAddrInfoGeo env 1 now
      (AddrInfo.mk a oai.geo oai.lastGeoTimestamp)).1
      = AddrInfo.mk a oai.geo oai.lastGeoTimestamp := by
    unfold updateAddrInfoGeo
    by_cases h1 : isLinkLocalUnicast a
    · simp [h1]
    · rcases hfresh with h2 | h2
      · simp [h1, h2]
      · by_cases h3 : now - oai.lastGeoTimestamp < 1
        · simp [h1, h3]
        · cases hg : env.geoLookup a with
          | none => simp [h1, h3, hg]
          | some info => simp [h1, h3, hg, h2 info hg]
  unfold portAddrFn
  by_cases hc : dpcIsMgmt ≤ config.version ∧
      (config.ports.getD ix default).isMgmt = false
  · rw [if_pos hc, hpe]
  · rw [if_neg hc, hpe, hupd]

/-- A fixed OS state for claims C6: eth0 is ifindex 1 with one address whose
geolocation lookup succeeds with IP 7. -/
def envC6 : NetEnv :=
  { ifnameToIndex := fun s => if s = "eth0" then some 1 else none
    ifindexToAddrs := fun i => if i = 1 then some [IPNet.mk 100 3] else none
    dhcpInfo := fun _ => .ok ("", [])
    networkProxy := fun _ => .ok none
    geoLookup := fun a => if a = 100 then some (GeoInfo.mk 7 1) else none }

/-- A management port on eth0. -/
def portCfgC6 : NetworkPortConfig :=
  { ifName := "eth0", name := "eth0", isMgmt := true, free := true, dhcp := 4,
    addrSubnet := none, gateway := 0, domainName := "", ntpServer := 0,
    dnsServers := [], proxyConfig := default }

/-- A one-port candidate on eth0. -/
def configC6 : DevicePortConfig :=
  { version := 1, key := "zedagent", timePriority := 9, lastSucceeded := 0,
    lastFailed := 0, lastError := "", ports := [portCfgC6] }

/-- An old status carrying a stale geolocation annotation (IP 3, timestamp 0)
for address 100 on eth0. -/
def oldC6 : DeviceNetworkStatus :=
  { version := 1, testing := false,
    ports := [{ basePortStatus portCfgC6 with
        addrInfoList := [{ addr := 100, geo := GeoInfo.mk 3 3,
                           lastGeoTimestamp := 0 }] }] }

/-- Counterexample to claim C6 as stated: the old annotation for address 100
(geolocation IP 3) is found and copied, but at time 5 the immediate
geolocation check re-fetches (the copied timestamp 0 is more than a second
old) and replaces it with the freshly fetched IP-7 annotation, so the
returned status does not carry the old `Geo` and `LastGeoTimestamp`. -/
theorem counterexample_C6 :
    lookupPortStatusAddr oldC6 "eth0" 100 =
      some { addr := 100, geo := GeoInfo.mk 3 3, lastGeoTimestamp := 0 } ∧
    findAddrInfo ((MakeDeviceNetworkStatus envC6 5 configC6 oldC6).ports.getD
        0 default).addrInfoList 100
      = some { addr := 100, geo := GeoInfo.mk 7 1, lastGeoTimestamp := 5 } ∧
    GeoInfo.mk 7 1 ≠ GeoInfo.mk 3 3 := by
  refine ⟨by decide, by decide, by decide⟩

/-- An old status like `oldC6` but with a fresh timestamp, for the claim C6
witness. -/
def oldC6fresh : DeviceNetworkStatus :=
  { version := 1, testing := false,
    ports := [{ basePortStatus portCfgC6 with
        addrInfoList := [{ addr := 100, geo := GeoInfo.mk 3 3,
                           lastGeoTimestamp := 5 }] }] }

theorem claim_C6_witness :
    0 < configC6.ports.length ∧
    100 ∈ ipsOf envC6 (configC6.ports.getD 0 default) ∧
    lookupPortStatusAddr oldC6fresh (configC6.ports.getD 0 default).ifName 100
      = some { addr := 100, geo := GeoInfo.mk 3 3, lastGeoTimestamp := 5 } ∧
    (5 : Nat) - 5 < 1 ∧
    findAddrInfo ((MakeDeviceNetworkStatus envC6 5 configC6
        oldC6fresh).ports.getD 0 default).addrInfoList 100
      = some { addr := 100, geo := GeoInfo.mk 3 3, lastGeoTimestamp := 5 } :=
  ⟨by decide, by decide, by decide, by decide,
    claim_C6 envC6 5 configC6 oldC6fresh 0 100
      { addr := 100, geo := GeoInfo.mk 3 3, lastGeoTimestamp := 5 }
      (by decide) (by decide) (by decide) (Or.inl (by decide))⟩

/-! ## Claim C5: idempotence of materialization -/

/-- The immediate geolocation check is idempotent at a fixed instant: an entry
it has just produced is left alone when processed again. -/
theorem updateAddrInfoGeo_fst_idem (env : NetEnv) (now : Nat)
    (ai : AddrInfo) :
    (updateAddrInfoGeo env 1 now (updateAddrInfoGeo env 1 now ai).1).1
      = (updateAddrInfoGeo env 1 now ai).1 := by
  unfold updateAddrInfoGeo
  by_cases h1 : isLinkLocalUnicast ai.addr
  · simp [h1]
  · by_cases h2 : now - ai.lastGeoTimestamp < 1
    · simp [h1, h2]
    · cases hg : env.geoLookup ai.addr with
      | none => simp [h1, h2, hg]
      | some info =>
        by_cases h3 : info.ip = ai.geo.ip
        · simp [h1, h2, hg, h3]
        · simp [h1, h2, hg, h3]

/-- The per-address pipeline only depends on the old status through the value
the preservation step copies: if preserving from a second status reproduces
the pipeline value obtained from the first, the whole pipelines agree. -/
theorem portAddrFn_of_preserve_eq (env : NetEnv) (now version : Nat)
    (oldA oldB : DeviceNetworkStatus) (u : NetworkPortConfig) (a : Nat)
    (hpe : preserveGeoEntry oldB u.ifName (freshAddrInfo a)
      = portAddrFn env now version oldA u a) :
    portAddrFn env now version oldB u a
      = portAddrFn env now version oldA u a := by
  unfold portAddrFn at hpe ⊢
  by_cases hc : dpcIsMgmt ≤ version ∧ u.isMgmt = false
  · rw [if_pos hc] at hpe
    rw [if_pos hc, if_pos hc]
    exact hpe
  · rw [if_neg hc] at hpe
    rw [if_neg hc, if_neg hc, hpe]
    exact updateAddrInfoGeo_fst_idem env now
      (preserveGeoEntry oldA u.ifName (freshAddrInfo a))

/-- Claim C5, corrected: with the candidate's port interface names pairwise
distinct, materializing twice under the same fixed OS state and instant is
idempotent — the second run with the first result as the old status
reproduces the first result exactly. -/
theorem claim_C5 (env : NetEnv) (now : Nat) (config : DevicePortConfig)
    (oldStatus : DeviceNetworkStatus)
    (hnd : (config.ports.map NetworkPortConfig.ifName).Nodup) :
    MakeDeviceNetworkStatus env now config
        (MakeDeviceNetworkStatus env now config oldStatus)
      = MakeDeviceNetworkStatus env now config oldStatus := by
  rw [MakeDeviceNetworkStatus_eq env now config
    (MakeDeviceNetworkStatus env now config oldStatus),
    MakeDeviceNetworkStatus_eq env now config oldStatus]
  refine congrArg (DeviceNetworkStatus.mk config.version false) ?_
  apply List.map_congr_left
  intro u hu
  rw [materializePort_eq, materializePort_eq]
  refine congrArg
    (fun l => { mkPortStatus env now u with addrInfoList := l }) ?_
  apply List.map_congr_left
  intro a ha
  apply portAddrFn_of_preserve_eq
  have hlk : lookupPortStatusAddr
      (DeviceNetworkStatus.mk config.version false
        (config.ports.map (materializePort env now config.version oldStatus)))
      u.ifName a
      = some (portAddrFn env now config.version oldStatus u a) :=
    lookupAux_map_materialize env now config.version oldStatus config.ports
      hnd u hu a ha
  unfold preserveGeoEntry
  rw [show (freshAddrInfo a).addr = a from rfl, hlk]
  have haddr := portAddrFn_addr env now config.version oldStatus u a
  cases hk : portAddrFn env now config.version oldStatus u a with
  | mk x g t =>
    rw [hk] at haddr
    rw [show (AddrInfo.mk x g t).addr = x from rfl] at haddr
    subst haddr
    rfl

/-- A fixed OS state for claims C5: eth0 is ifindex 1 with one address whose
geolocation lookup succeeds with IP 7. -/
def envC5 : NetEnv :=
  { ifnameToIndex := fun s => if s = "eth0" then some 1 else none
    ifindexToAddrs := fun i => if i = 1 then some [IPNet.mk 100 3] else none
    dhcpInfo := fun _ => .ok ("", [])
    networkProxy := fun _ => .ok none
    geoLookup := fun a => if a = 100 then some (GeoInfo.mk 7 1) else none }

/-- A management port on eth0. -/
def portCfgC5m : NetworkPortConfig :=
  { ifName := "eth0", name := "eth0", isMgmt := true, free := true, dhcp := 4,
    addrSubnet := none, gateway := 0, domainName := "", ntpServer := 0,
    dnsServers := [], proxyConfig := default }

/-- A NON-management port on the same interface eth0. -/
def portCfgC5n : NetworkPortConfig := { portCfgC5m with isMgmt := false }

/-- A candidate whose two ports share the interface name eth0 but differ in
the management flag. -/
def configC5 : DevicePortConfig :=
  { version := 1, key := "zedagent", timePriority := 9, lastSucceeded := 0,
    lastFailed := 0, lastError := "", ports := [portCfgC5m, portCfgC5n] }

/-- Follows the spec's wording for the idempotence comparison, "deep-equal
DeviceNetworkStatus (excluding geolocation refresh timing)": all geolocation
refresh timestamps are cleared before comparing. -/
def stripGeoRefreshTiming (status : DeviceNetworkStatus) :
    DeviceNetworkStatus :=
  let stripEntry := fun (ai : AddrInfo) => { ai with lastGeoTimestamp := 0 }
  let stripPort := fun (p : NetworkPortStatus) =>
    { p with addrInfoList := p.addrInfoList.map stripEntry }
  { status with ports := status.ports.map stripPort }

/-- Counterexample to claim C5 as stated: with two ports sharing interface
eth0 but differing in the management flag, the second materialization differs
from the first even after discarding geolocation refresh timing — the
immediate geolocation check refreshes only the management port's copy of the
address, and the second run copies that refreshed annotation onto the
non-management port as well. -/
theorem counterexample_C5 :
    stripGeoRefreshTiming
        (MakeDeviceNetworkStatus envC5 5 configC5
          (MakeDeviceNetworkStatus envC5 5 configC5 emptyDNS))
      ≠ stripGeoRefreshTiming
          (MakeDeviceNetworkStatus envC5 5 configC5 emptyDNS) := by
  decide

/-- A one-port candidate (distinct interface names trivially) for the claim
C5 witness. -/
def configC5w : DevicePortConfig := { configC5 with ports := [portCfgC5m] }

theorem claim_C5_witness :
    (configC5w.ports.map NetworkPortConfig.ifName).Nodup ∧
    MakeDeviceNetworkStatus envC5 5 configC5w
        (MakeDeviceNetworkStatus envC5 5 configC5w emptyDNS)
      = MakeDeviceNetworkStatus envC5 5 configC5w emptyDNS :=
  ⟨by decide, claim_C5 envC5 5 configC5w emptyDNS (by decide)⟩

end GoProvision
